import Mathlib

/-!
Verification of the `RenderEngine` scene-registry and lifecycle contract of
`ign-rendering` (`include/ignition/rendering/RenderEngine.hh`).

The repository ships only the abstract interface declaration: every member of
`RenderEngine` is pure virtual, so the behaviour is fixed by the interface's
doc comments and the accompanying specification.  The definitions below are a
shallow embedding of that contract: an engine is a record holding its backend
name, its lifecycle state, the result of the hardware-capability check, and
the ordered list of scenes it manages.  Every operation of the interface is
modelled as an executable Lean function on this record.
-/

/-- Modelled from the spec: a Scene is "a named, uniquely identified container
for renderable content"; its `id` is an unsigned integer and its `name` a
string; the payload is opaque and out of scope. -/
structure Scene where
  id : Nat
  name : String
deriving DecidableEq, Repr

/-- Modelled from the spec: the engine's `lifecycleState` is "one of
{Unloaded, Loaded, Initialized, Destroyed}". -/
inductive LifecycleState where
  | Unloaded
  | Loaded
  | Initialized
  | Destroyed
deriving DecidableEq, Repr

/-- Modelled from the spec: an Engine has an immutable backend `name`, a
`lifecycleState`, a hardware/capability-check result (the spec derives
`enabled` from the state together with an "underlying hardware/capability
check"; `hwCapable` records that check's outcome), and an ordered collection
of managed scenes ("insertion order preserved for index-based access"). -/
structure RenderEngine where
  name : String
  lifecycleState : LifecycleState
  hwCapable : Bool
  scenes : List Scene
deriving DecidableEq, Repr

/-- Modelled from the spec: "Engine is constructed in Unloaded state" with an
empty scene registry; the hardware-capability outcome is a parameter of the
concrete backend. -/
def mkRenderEngine (nm : String) (hw : Bool) : RenderEngine :=
  { name := nm, lifecycleState := .Unloaded, hwCapable := hw, scenes := [] }

/-- Modelled from the spec: `Load()` "transitions Unloaded→Loaded"; it
"returns false on failure; state remains Unloaded".  The success of the
backend's resource acquisition is the Boolean parameter `backendOk`. -/
def RenderEngine.Load (e : RenderEngine) (backendOk : Bool) :
    Bool × RenderEngine :=
  if backendOk && e.lifecycleState == .Unloaded then
    (true, { e with lifecycleState := .Loaded })
  else
    (false, e)

/-- Modelled from the spec: `Init()` "transitions Loaded→Initialized" and
"must follow a successful `Load()`"; it "returns false on failure". -/
def RenderEngine.Init (e : RenderEngine) (backendOk : Bool) :
    Bool × RenderEngine :=
  if backendOk && e.lifecycleState == .Loaded then
    (true, { e with lifecycleState := .Initialized })
  else
    (false, e)

/-- Modelled from the spec: `Destroy()` "destroys all scenes ... and releases
all backend resources. Transitions to Destroyed". -/
def RenderEngine.Destroy (e : RenderEngine) : RenderEngine :=
  { e with lifecycleState := .Destroyed, scenes := [] }

/-- Modelled from the spec: `IsLoaded()` is a pure state query, true once the
engine "has been loaded" (state Loaded or Initialized). -/
def RenderEngine.IsLoaded (e : RenderEngine) : Bool :=
  e.lifecycleState == .Loaded || e.lifecycleState == .Initialized

/-- Modelled from the spec: `IsInitialized()` is a pure state query, true when
the engine "has been initialized". -/
def RenderEngine.IsInitialized (e : RenderEngine) : Bool :=
  e.lifecycleState == .Initialized

/-- Modelled from the spec: `enabled` is a "derived boolean — true only if
lifecycleState = Initialized AND underlying hardware/capability check
succeeds". -/
def RenderEngine.IsEnabled (e : RenderEngine) : Bool :=
  e.IsInitialized && e.hwCapable

/-- Modelled from the spec: `GetName()` "returns the immutable backend
identifier". -/
def RenderEngine.GetName (e : RenderEngine) : String :=
  e.name

/-- Modelled from the spec: `GetSceneCount()` is the "number of currently live
scenes". -/
def RenderEngine.GetSceneCount (e : RenderEngine) : Nat :=
  e.scenes.length

/-- Modelled from the spec: `HasScene(scene)` is a membership test over the
scenes "actively managed by this render-engine". -/
def RenderEngine.HasScene (e : RenderEngine) (s : Scene) : Bool :=
  e.scenes.any (fun t => decide (t = s))

/-- Modelled from the spec: `HasSceneId(id)` tests whether "this render-engine
manages the scene with the given ID". -/
def RenderEngine.HasSceneId (e : RenderEngine) (i : Nat) : Bool :=
  e.scenes.any (fun t => decide (t.id = i))

/-- Modelled from the spec: `HasSceneName(name)` tests whether "this
render-engine manages the scene with the given name". -/
def RenderEngine.HasSceneName (e : RenderEngine) (nm : String) : Bool :=
  e.scenes.any (fun t => decide (t.name = nm))

/-- Modelled from the spec: `GetSceneById(id)` returns "the scene with the
given ID. If no scenes exist with the given ID, NULL will be returned". -/
def RenderEngine.GetSceneById (e : RenderEngine) (i : Nat) : Option Scene :=
  e.scenes.find? (fun t => decide (t.id = i))

/-- Modelled from the spec: `GetSceneByName(name)` returns "the scene with the
given name. If no scenes exist with the given name, NULL will be returned". -/
def RenderEngine.GetSceneByName (e : RenderEngine) (nm : String) :
    Option Scene :=
  e.scenes.find? (fun t => decide (t.name = nm))

/-- Modelled from the spec: `GetSceneByIndex(index)` returns "the scene at the
given index. If no scenes exist at the given index, NULL will be returned";
insertion order is preserved for index-based access. -/
def RenderEngine.GetSceneByIndex (e : RenderEngine) (i : Nat) : Option Scene :=
  e.scenes[i]?

/-- Modelled from the spec: `DestroyScene(scene)` removes "the given scene. If
the given scene is not managed by this render-engine, no work will be
done". -/
def RenderEngine.DestroyScene (e : RenderEngine) (s : Scene) : RenderEngine :=
  { e with scenes := e.scenes.filter (fun t => decide (t ≠ s)) }

/-- Modelled from the spec: `DestroySceneById(id)` removes "the scene with the
given ID. If no scenes exist at the given ID, no work will be done". -/
def RenderEngine.DestroySceneById (e : RenderEngine) (i : Nat) : RenderEngine :=
  { e with scenes := e.scenes.filter (fun t => decide (t.id ≠ i)) }

/-- Modelled from the spec: `DestroySceneByName(name)` removes "the scene with
the given name. If no scenes exist at the given name, no work will be
done". -/
def RenderEngine.DestroySceneByName (e : RenderEngine) (nm : String) :
    RenderEngine :=
  { e with scenes := e.scenes.filter (fun t => decide (t.name ≠ nm)) }

/-- Modelled from the spec: `DestroySceneByIndex(index)` removes "the scene at
the given index. If no scenes exist at the given index, no work will be
done". -/
def RenderEngine.DestroySceneByIndex (e : RenderEngine) (i : Nat) :
    RenderEngine :=
  { e with scenes := e.scenes.eraseIdx i }

/-- Modelled from the spec: `DestroyScenes()` removes "every scene; registry
becomes empty; engine state unaffected". -/
def RenderEngine.DestroyScenes (e : RenderEngine) : RenderEngine :=
  { e with scenes := [] }

/-- Modelled from the spec: the id "automatically assigned" by the
one-argument `CreateScene` overload; the spec leaves the assignment algorithm
open ("an implementation choice"), requiring only that the id be fresh, so we
take one more than the largest id in use. -/
def RenderEngine.freshId (e : RenderEngine) : Nat :=
  (e.scenes.map Scene.id).foldr max 0 + 1

/-- Modelled from the spec: `CreateScene(name)` — "engine assigns a fresh
unique id. Fails (returns null) if `name` already in use"; additionally
"Scenes cannot be created before the engine reaches Initialized state with
enabled = true (implied precondition; violated creation attempts fail)". -/
def RenderEngine.CreateScene (e : RenderEngine) (nm : String) :
    Option Scene × RenderEngine :=
  if e.IsEnabled && !(e.HasSceneName nm) then
    let s : Scene := ⟨e.freshId, nm⟩
    (some s, { e with scenes := e.scenes ++ [s] })
  else
    (none, e)

/-- Modelled from the spec: the two-argument overload `CreateScene(id, name)`
— "caller supplies both; fails (returns null) if either collides with an
existing scene"; creation also requires the Initialized-and-enabled
precondition. -/
def RenderEngine.CreateSceneWithId (e : RenderEngine) (i : Nat) (nm : String) :
    Option Scene × RenderEngine :=
  if e.IsEnabled && !(e.HasSceneId i) && !(e.HasSceneName nm) then
    let s : Scene := ⟨i, nm⟩
    (some s, { e with scenes := e.scenes ++ [s] })
  else
    (none, e)

/-- Registry invariant from the spec: "No two scenes managed by the same
engine share an id" and "No two scenes managed by the same engine share a
name". -/
def WellFormed (e : RenderEngine) : Prop :=
  (e.scenes.map Scene.id).Nodup ∧ (e.scenes.map Scene.name).Nodup

/-- One registry-mutating operation of the interface, as enumerated by the
spec's scene-registry section. -/
inductive RegistryOp where
  | create (nm : String)
  | createWithId (i : Nat) (nm : String)
  | destroyScene (s : Scene)
  | destroyById (i : Nat)
  | destroyByName (nm : String)
  | destroyByIndex (i : Nat)
  | destroyScenes
deriving DecidableEq, Repr

/-- Applies one registry operation to an engine, discarding the returned
scene handle of the create overloads. -/
def applyRegistryOp (e : RenderEngine) : RegistryOp → RenderEngine
  | .create nm => (e.CreateScene nm).2
  | .createWithId i nm => (e.CreateSceneWithId i nm).2
  | .destroyScene s => e.DestroyScene s
  | .destroyById i => e.DestroySceneById i
  | .destroyByName nm => e.DestroySceneByName nm
  | .destroyByIndex i => e.DestroySceneByIndex i
  | .destroyScenes => e.DestroyScenes

/-- One observer (const-qualified) operation of the interface. -/
inductive ObserverOp where
  | isLoaded
  | isInitialized
  | isEnabled
  | getName
  | getSceneCount
  | hasScene (s : Scene)
  | hasSceneId (i : Nat)
  | hasSceneName (nm : String)
  | getSceneById (i : Nat)
  | getSceneByName (nm : String)
  | getSceneByIndex (i : Nat)
deriving DecidableEq, Repr

/-- Result of an observer call. -/
inductive ObsResult where
  | b (v : Bool)
  | str (v : String)
  | n (v : Nat)
  | sc (v : Option Scene)
deriving DecidableEq, Repr

/-- Runs one observer call as a state transformer: it returns the queried
value together with the engine state after the call.  The observers of the
interface are const-qualified, so the state after the call is the engine the
query was evaluated on. -/
def runObserver (e : RenderEngine) : ObserverOp → ObsResult × RenderEngine
  | .isLoaded => (.b e.IsLoaded, e)
  | .isInitialized => (.b e.IsInitialized, e)
  | .isEnabled => (.b e.IsEnabled, e)
  | .getName => (.str e.GetName, e)
  | .getSceneCount => (.n e.GetSceneCount, e)
  | .hasScene s => (.b (e.HasScene s), e)
  | .hasSceneId i => (.b (e.HasSceneId i), e)
  | .hasSceneName nm => (.b (e.HasSceneName nm), e)
  | .getSceneById i => (.sc (e.GetSceneById i), e)
  | .getSceneByName nm => (.sc (e.GetSceneByName nm), e)
  | .getSceneByIndex i => (.sc (e.GetSceneByIndex i), e)

/-- Runs a sequence of observer calls, threading the engine state through and
collecting the results in order. -/
def runObservers (e : RenderEngine) : List ObserverOp →
    List ObsResult × RenderEngine
  | [] => ([], e)
  | op :: ops =>
    let r := runObserver e op
    let rest := runObservers r.2 ops
    (r.1 :: rest.1, rest.2)

/-- Sample engine used by the concrete witnesses: an initialized, enabled
backend managing the single scene `⟨42, "alpha"⟩`. -/
def sampleEngine : RenderEngine :=
  { name := "ogre", lifecycleState := .Initialized, hwCapable := true,
    scenes := [⟨42, "alpha"⟩] }

example : (sampleEngine.CreateSceneWithId 42 "beta").1 = none := by decide
example : (sampleEngine.CreateSceneWithId 7 "alpha").1 = none := by decide
example : (sampleEngine.CreateSceneWithId 7 "beta").1 = some ⟨7, "beta"⟩ := by
  decide
example : (sampleEngine.CreateScene "beta").2.GetSceneCount = 2 := by decide
example : sampleEngine.GetSceneByIndex 1 = none := by decide

/-! ### Helper lemmas shared by the claim theorems -/

theorem hasScene_eq_false_iff (e : RenderEngine) (s : Scene) :
    e.HasScene s = false ↔ s ∉ e.scenes := by
  simp only [RenderEngine.HasScene, Bool.eq_false_iff, ne_eq, List.any_eq_true,
    decide_eq_true_eq, not_exists, not_and]
  constructor
  · intro h hs
    exact h s hs rfl
  · intro h t ht heq
    exact h (heq ▸ ht)

theorem hasSceneId_eq_false_iff (e : RenderEngine) (i : Nat) :
    e.HasSceneId i = false ↔ ∀ t ∈ e.scenes, t.id ≠ i := by
  simp [RenderEngine.HasSceneId]

theorem hasSceneName_eq_false_iff (e : RenderEngine) (nm : String) :
    e.HasSceneName nm = false ↔ ∀ t ∈ e.scenes, t.name ≠ nm := by
  simp [RenderEngine.HasSceneName]

theorem mem_le_foldr_max (x : Nat) (l : List Nat) (hx : x ∈ l) :
    x ≤ l.foldr max 0 := by
  induction l with
  | nil => cases hx
  | cons a l ih =>
    rcases List.mem_cons.mp hx with rfl | h
    · exact le_max_left _ _
    · exact le_trans (ih h) (le_max_right _ _)

theorem freshId_not_used (e : RenderEngine) :
    e.HasSceneId e.freshId = false := by
  rw [hasSceneId_eq_false_iff]
  intro t ht h
  have hle : t.id ≤ (e.scenes.map Scene.id).foldr max 0 :=
    mem_le_foldr_max _ _ (List.mem_map_of_mem _ ht)
  rw [RenderEngine.freshId] at h
  omega

theorem createScene_eq (e : RenderEngine) (nm : String) :
    e.CreateScene nm =
      if e.IsEnabled && !(e.HasSceneName nm) then
        (some ⟨e.freshId, nm⟩, { e with scenes := e.scenes ++ [⟨e.freshId, nm⟩] })
      else
        (none, e) := by
  rw [RenderEngine.CreateScene]

theorem createSceneWithId_eq (e : RenderEngine) (i : Nat) (nm : String) :
    e.CreateSceneWithId i nm =
      if e.IsEnabled && !(e.HasSceneId i) && !(e.HasSceneName nm) then
        (some ⟨i, nm⟩, { e with scenes := e.scenes ++ [⟨i, nm⟩] })
      else
        (none, e) := by
  rw [RenderEngine.CreateSceneWithId]

theorem filter_ne_eq_self_of_not_mem {l : List Scene} {s : Scene}
    (h : s ∉ l) : l.filter (fun t => decide (t ≠ s)) = l := by
  refine List.filter_eq_self.mpr (fun a ha => ?_)
  simp only [ne_eq, decide_not, Bool.not_eq_true', decide_eq_false_iff_not]
  rintro rfl
  exact h ha

theorem length_filter_ne_of_nodup {l : List Scene} {s : Scene}
    (hn : l.Nodup) (hs : s ∈ l) :
    (l.filter (fun t => decide (t ≠ s))).length + 1 = l.length := by
  induction l with
  | nil => cases hs
  | cons a l ih =>
    rw [List.nodup_cons] at hn
    rcases List.mem_cons.mp hs with rfl | h
    · rw [List.filter_cons, if_neg (by simp)]
      rw [filter_ne_eq_self_of_not_mem hn.1, List.length_cons]
    · have has : a ≠ s := by rintro rfl; exact hn.1 h
      rw [List.filter_cons, if_pos (by simp [has])]
      rw [List.length_cons, List.length_cons, ih hn.2 h]

theorem wellFormed_scenes_nodup {e : RenderEngine} (h : WellFormed e) :
    e.scenes.Nodup :=
  List.Nodup.of_map Scene.id h.1

theorem wellFormed_filter (e : RenderEngine) (p : Scene → Bool)
    (h : WellFormed e) :
    WellFormed { e with scenes := e.scenes.filter p } := by
  obtain ⟨h1, h2⟩ := h
  exact ⟨h1.sublist ((List.filter_sublist _).map _),
    h2.sublist ((List.filter_sublist _).map _)⟩

theorem wellFormed_eraseIdx (e : RenderEngine) (i : Nat)
    (h : WellFormed e) :
    WellFormed { e with scenes := e.scenes.eraseIdx i } := by
  obtain ⟨h1, h2⟩ := h
  exact ⟨h1.sublist ((List.eraseIdx_sublist _ _).map _),
    h2.sublist ((List.eraseIdx_sublist _ _).map _)⟩

theorem wellFormed_append (e : RenderEngine) (s : Scene)
    (h : WellFormed e) (hid : e.HasSceneId s.id = false)
    (hnm : e.HasSceneName s.name = false) :
    WellFormed { e with scenes := e.scenes ++ [s] } := by
  obtain ⟨h1, h2⟩ := h
  rw [hasSceneId_eq_false_iff] at hid
  rw [hasSceneName_eq_false_iff] at hnm
  constructor
  · rw [List.map_append, List.nodup_append]
    refine ⟨h1, List.nodup_singleton _, fun a ha hb => ?_⟩
    obtain ⟨t, ht, rfl⟩ := List.mem_map.mp ha
    rw [List.map_singleton, List.mem_singleton] at hb
    exact hid t ht hb
  · rw [List.map_append, List.nodup_append]
    refine ⟨h2, List.nodup_singleton _, fun a ha hb => ?_⟩
    obtain ⟨t, ht, rfl⟩ := List.mem_map.mp ha
    rw [List.map_singleton, List.mem_singleton] at hb
    exact hnm t ht hb

theorem applyRegistryOp_wellFormed (e : RenderEngine) (op : RegistryOp)
    (h : WellFormed e) : WellFormed (applyRegistryOp e op) := by
  cases op with
  | create nm =>
    show WellFormed (e.CreateScene nm).2
    rw [createScene_eq]
    split
    · rename_i hc
      simp only [Bool.and_eq_true, Bool.not_eq_true'] at hc
      exact wellFormed_append e _ h (freshId_not_used e) hc.2
    · exact h
  | createWithId i nm =>
    show WellFormed (e.CreateSceneWithId i nm).2
    rw [createSceneWithId_eq]
    split
    · rename_i hc
      simp only [Bool.and_eq_true, Bool.not_eq_true'] at hc
      exact wellFormed_append e _ h hc.1.2 hc.2
    · exact h
  | destroyScene s => exact wellFormed_filter e _ h
  | destroyById i => exact wellFormed_filter e _ h
  | destroyByName nm => exact wellFormed_filter e _ h
  | destroyByIndex i => exact wellFormed_eraseIdx e _ h
  | destroyScenes => exact ⟨List.nodup_nil, List.nodup_nil⟩

theorem eraseIdx_of_length_le {l : List Scene} {j : Nat} (h : l.length ≤ j) :
    l.eraseIdx j = l := by
  induction l generalizing j with
  | nil => rfl
  | cons a l ih =>
    cases j with
    | zero => exact absurd h (by simp)
    | succ j =>
      rw [List.eraseIdx_cons_succ, ih (Nat.le_of_succ_le_succ h)]

/-! ### Claim theorems -/

/-- C1: for every engine, a CreateScene call (in either the one-argument or
two-argument overload) whose supplied name or supplied id equals the name or
id of a scene already managed by that engine returns null, and the engine's
`GetSceneCount()` is unchanged by the failed call. -/
theorem createScene_duplicate_returns_none (e : RenderEngine) (i : Nat)
    (nm : String) (h : e.HasSceneId i = true ∨ e.HasSceneName nm = true) :
    (e.CreateSceneWithId i nm).1 = none ∧
    (e.CreateSceneWithId i nm).2.GetSceneCount = e.GetSceneCount ∧
    (e.HasSceneName nm = true →
      (e.CreateScene nm).1 = none ∧
      (e.CreateScene nm).2.GetSceneCount = e.GetSceneCount) := by
  have h2 : (e.IsEnabled && !(e.HasSceneId i) && !(e.HasSceneName nm))
      = false := by
    rcases h with h | h <;> simp [h]
  rw [createSceneWithId_eq, if_neg (by simp [h2])]
  refine ⟨rfl, rfl, fun hnm => ?_⟩
  rw [createScene_eq, if_neg (by simp [hnm])]
  exact ⟨rfl, rfl⟩

theorem createScene_duplicate_returns_none_witness :
    (sampleEngine.CreateSceneWithId 7 "alpha").1 = none ∧
    (sampleEngine.CreateSceneWithId 7 "alpha").2.GetSceneCount
      = sampleEngine.GetSceneCount ∧
    (sampleEngine.HasSceneName "alpha" = true →
      (sampleEngine.CreateScene "alpha").1 = none ∧
      (sampleEngine.CreateScene "alpha").2.GetSceneCount
        = sampleEngine.GetSceneCount) :=
  createScene_duplicate_returns_none sampleEngine 7 "alpha"
    (Or.inr (by decide))

/-- C2: for every engine and every name not already in use, a successful
`CreateScene(name)` is followed by `HasSceneName(name)` returning true and
`GetSceneByName(name)` returning a non-null scene whose name equals the given
name. -/
theorem createScene_then_lookup (e : RenderEngine) (nm : String) (s : Scene)
    (hfree : e.HasSceneName nm = false) (hs : (e.CreateScene nm).1 = some s) :
    (e.CreateScene nm).2.HasSceneName nm = true ∧
    ∃ t, (e.CreateScene nm).2.GetSceneByName nm = some t ∧ t.name = nm := by
  rw [createScene_eq] at hs ⊢
  by_cases hc : (e.IsEnabled && !(e.HasSceneName nm)) = true
  · rw [if_pos hc]
    constructor
    · simp [RenderEngine.HasSceneName, List.any_append]
    · refine ⟨⟨e.freshId, nm⟩, ?_, rfl⟩
      simp only [RenderEngine.GetSceneByName]
      rw [List.find?_append]
      have hnone : e.scenes.find? (fun t => decide (t.name = nm)) = none := by
        rw [List.find?_eq_none]
        intro x hx
        simpa using (hasSceneName_eq_false_iff e nm).mp hfree x hx
      rw [hnone]
      simp [List.find?]
  · rw [if_neg hc] at hs
    cases hs

theorem createScene_then_lookup_witness :
    (sampleEngine.CreateScene "beta").2.HasSceneName "beta" = true ∧
    ∃ t, (sampleEngine.CreateScene "beta").2.GetSceneByName "beta" = some t ∧
      t.name = "beta" :=
  createScene_then_lookup sampleEngine "beta" ⟨43, "beta"⟩ (by decide)
    (by decide)

/-- C3: for every engine, `GetSceneById(id)`, `GetSceneByName(name)`, and
`GetSceneByIndex(index)` return null whenever no managed scene matches the
given key; in particular `GetSceneByIndex(i)` returns null for every index
`i ≥ GetSceneCount()`. -/
theorem getScene_absent_none (e : RenderEngine) (i : Nat) (nm : String)
    (j : Nat) (hid : e.HasSceneId i = false)
    (hnm : e.HasSceneName nm = false) (hj : e.GetSceneCount ≤ j) :
    e.GetSceneById i = none ∧ e.GetSceneByName nm = none ∧
    e.GetSceneByIndex j = none := by
  refine ⟨?_, ?_, ?_⟩
  · rw [RenderEngine.GetSceneById, List.find?_eq_none]
    intro x hx
    simpa using (hasSceneId_eq_false_iff e i).mp hid x hx
  · rw [RenderEngine.GetSceneByName, List.find?_eq_none]
    intro x hx
    simpa using (hasSceneName_eq_false_iff e nm).mp hnm x hx
  · exact List.getElem?_eq_none hj

theorem getScene_absent_none_witness :
    sampleEngine.GetSceneById 7 = none ∧
    sampleEngine.GetSceneByName "beta" = none ∧
    sampleEngine.GetSceneByIndex 1 = none :=
  getScene_absent_none sampleEngine 7 "beta" 1 (by decide) (by decide)
    (by decide)

/-- C4: for every engine, `DestroyScene`, `DestroySceneById`,
`DestroySceneByName`, and `DestroySceneByIndex` applied to a scene, id, name,
or index that matches no managed scene are no-ops: the engine (scene
registry, order, count, and lifecycle state) is unchanged. -/
theorem destroy_absent_noop (e : RenderEngine) (s : Scene) (i : Nat)
    (nm : String) (j : Nat) (hs : e.HasScene s = false)
    (hid : e.HasSceneId i = false) (hnm : e.HasSceneName nm = false)
    (hj : e.GetSceneCount ≤ j) :
    e.DestroyScene s = e ∧ e.DestroySceneById i = e ∧
    e.DestroySceneByName nm = e ∧ e.DestroySceneByIndex j = e := by
  refine ⟨?_, ?_, ?_, ?_⟩
  · have h1 : e.scenes.filter (fun t => decide (t ≠ s)) = e.scenes :=
      filter_ne_eq_self_of_not_mem ((hasScene_eq_false_iff e s).mp hs)
    rw [RenderEngine.DestroyScene, h1]
  · have h1 : e.scenes.filter (fun t => decide (t.id ≠ i)) = e.scenes := by
      refine List.filter_eq_self.mpr (fun a ha => ?_)
      simpa using (hasSceneId_eq_false_iff e i).mp hid a ha
    rw [RenderEngine.DestroySceneById, h1]
  · have h1 : e.scenes.filter (fun t => decide (t.name ≠ nm)) = e.scenes := by
      refine List.filter_eq_self.mpr (fun a ha => ?_)
      simpa using (hasSceneName_eq_false_iff e nm).mp hnm a ha
    rw [RenderEngine.DestroySceneByName, h1]
  · rw [RenderEngine.DestroySceneByIndex, eraseIdx_of_length_le hj]

theorem destroy_absent_noop_witness :
    sampleEngine.DestroyScene ⟨7, "beta"⟩ = sampleEngine ∧
    sampleEngine.DestroySceneById 7 = sampleEngine ∧
    sampleEngine.DestroySceneByName "beta" = sampleEngine ∧
    sampleEngine.DestroySceneByIndex 1 = sampleEngine :=
  destroy_absent_noop sampleEngine ⟨7, "beta"⟩ 7 "beta" 1 (by decide)
    (by decide) (by decide) (by decide)

/-- C5: for every engine and every scene `s` currently managed by it, after
`DestroyScene(s)` the query `HasScene(s)` returns false and `GetSceneCount()`
is exactly one less than its value before the call. -/
theorem destroyScene_removes_exactly_one (e : RenderEngine) (s : Scene)
    (hwf : WellFormed e) (hs : e.HasScene s = true) :
    (e.DestroyScene s).HasScene s = false ∧
    (e.DestroyScene s).GetSceneCount + 1 = e.GetSceneCount := by
  have hmem : s ∈ e.scenes := by
    simpa [RenderEngine.HasScene] using hs
  constructor
  · rw [hasScene_eq_false_iff]
    intro hmem'
    have hdec := (List.mem_filter.mp hmem').2
    simp at hdec
  · show (e.scenes.filter (fun t => decide (t ≠ s))).length + 1
      = e.scenes.length
    exact length_filter_ne_of_nodup (wellFormed_scenes_nodup hwf) hmem

theorem destroyScene_removes_exactly_one_witness :
    (sampleEngine.DestroyScene ⟨42, "alpha"⟩).HasScene ⟨42, "alpha"⟩
      = false ∧
    (sampleEngine.DestroyScene ⟨42, "alpha"⟩).GetSceneCount + 1
      = sampleEngine.GetSceneCount :=
  destroyScene_removes_exactly_one sampleEngine ⟨42, "alpha"⟩
    (by exact ⟨by decide, by decide⟩) (by decide)

/-- C6: for every engine, after `DestroyScenes()` the registry is empty:
`GetSceneCount()` returns zero and `HasSceneId(id)` and `HasSceneName(name)`
return false for every id and name (in particular those of every scene that
existed before the call), while the lifecycle queries `IsLoaded`,
`IsInitialized`, and `IsEnabled` are unaffected. -/
theorem destroyScenes_empties_registry (e : RenderEngine) :
    e.DestroyScenes.GetSceneCount = 0 ∧
    (∀ i, e.DestroyScenes.HasSceneId i = false) ∧
    (∀ nm, e.DestroyScenes.HasSceneName nm = false) ∧
    e.DestroyScenes.IsLoaded = e.IsLoaded ∧
    e.DestroyScenes.IsInitialized = e.IsInitialized ∧
    e.DestroyScenes.IsEnabled = e.IsEnabled :=
  ⟨rfl, fun _ => rfl, fun _ => rfl, rfl, rfl, rfl⟩

/-- C7: for every well-formed engine and every sequence of registry
operations (both `CreateScene` overloads, the four targeted destroy
operations, and `DestroyScenes`), the invariant holds that no two scenes
managed by the engine share an id and no two share a name. -/
theorem registry_ops_preserve_uniqueness (e : RenderEngine)
    (ops : List RegistryOp) (h : WellFormed e) :
    List.Pairwise (fun s t => s.id ≠ t.id ∧ s.name ≠ t.name)
      (ops.foldl applyRegistryOp e).scenes := by
  have hw : WellFormed (ops.foldl applyRegistryOp e) := by
    induction ops generalizing e with
    | nil => exact h
    | cons op ops ih => exact ih _ (applyRegistryOp_wellFormed e op h)
  exact (List.pairwise_map.mp hw.1).and (List.pairwise_map.mp hw.2)

theorem registry_ops_preserve_uniqueness_witness :
    List.Pairwise (fun s t => s.id ≠ t.id ∧ s.name ≠ t.name)
      (([RegistryOp.create "beta", RegistryOp.createWithId 7 "gamma",
        RegistryOp.destroyById 42].foldl applyRegistryOp
          sampleEngine).scenes) :=
  registry_ops_preserve_uniqueness sampleEngine
    [RegistryOp.create "beta", RegistryOp.createWithId 7 "gamma",
      RegistryOp.destroyById 42] (by exact ⟨by decide, by decide⟩)

/-- C8: every engine starts in the Unloaded state with `IsLoaded()` returning
false; after a successful `Load()` call, `IsLoaded()` returns true and
`IsInitialized()` returns false; after a subsequent successful `Init()` call,
`IsInitialized()` returns true. -/
theorem lifecycle_progression (nm : String) (hw : Bool)
    (e e' : RenderEngine) (ok ok' : Bool)
    (hL : (e.Load ok).1 = true) (hI : (e'.Init ok').1 = true) :
    (mkRenderEngine nm hw).lifecycleState = LifecycleState.Unloaded ∧
    (mkRenderEngine nm hw).IsLoaded = false ∧
    (e.Load ok).2.IsLoaded = true ∧
    (e.Load ok).2.IsInitialized = false ∧
    (e'.Init ok').2.IsInitialized = true := by
  have hcL : (ok && (e.lifecycleState == LifecycleState.Unloaded))
      = true := by
    by_contra hc
    rw [RenderEngine.Load, if_neg hc] at hL
    simp at hL
  have hcI : (ok' && (e'.lifecycleState == LifecycleState.Loaded))
      = true := by
    by_contra hc
    rw [RenderEngine.Init, if_neg hc] at hI
    simp at hI
  refine ⟨rfl, rfl, ?_, ?_, ?_⟩
  · rw [RenderEngine.Load, if_pos hcL]
    rfl
  · rw [RenderEngine.Load, if_pos hcL]
    rfl
  · rw [RenderEngine.Init, if_pos hcI]
    rfl

theorem lifecycle_progression_witness :
    (mkRenderEngine "ogre" true).lifecycleState
      = LifecycleState.Unloaded ∧
    (mkRenderEngine "ogre" true).IsLoaded = false ∧
    ((mkRenderEngine "ogre" true).Load true).2.IsLoaded = true ∧
    ((mkRenderEngine "ogre" true).Load true).2.IsInitialized = false ∧
    (((mkRenderEngine "ogre" true).Load true).2.Init true).2.IsInitialized
      = true :=
  lifecycle_progression "ogre" true (mkRenderEngine "ogre" true)
    ((mkRenderEngine "ogre" true).Load true).2 true true (by decide)
    (by decide)

/-- C9: for every engine that is not Initialized-and-enabled (that is,
`IsEnabled()` returns false), every `CreateScene` call — either overload —
fails by returning null: no scene can be created before the engine is
initialized and enabled. -/
theorem createScene_requires_enabled (e : RenderEngine) (i : Nat)
    (nm : String) (h : e.IsEnabled = false) :
    (e.CreateScene nm).1 = none ∧ (e.CreateSceneWithId i nm).1 = none := by
  constructor
  · rw [createScene_eq, if_neg (by simp [h])]
  · rw [createSceneWithId_eq, if_neg (by simp [h])]

theorem createScene_requires_enabled_witness :
    ((mkRenderEngine "ogre" true).CreateScene "main").1 = none ∧
    ((mkRenderEngine "ogre" true).CreateSceneWithId 42 "main").1 = none :=
  createScene_requires_enabled (mkRenderEngine "ogre" true) 42 "main"
    (by decide)

theorem runObserver_snd (e : RenderEngine) (op : ObserverOp) :
    (runObserver e op).2 = e := by
  cases op <;> rfl

theorem runObservers_snd (e : RenderEngine) (ops : List ObserverOp) :
    (runObservers e ops).2 = e := by
  induction ops generalizing e with
  | nil => rfl
  | cons op ops ih =>
    show (runObservers (runObserver e op).2 ops).2 = e
    rw [runObserver_snd, ih]

/-- C10: every observer operation of the interface — `IsLoaded`,
`IsInitialized`, `IsEnabled`, `GetName`, `GetSceneCount`, `HasScene`,
`HasSceneId`, `HasSceneName`, `GetSceneById`, `GetSceneByName`,
`GetSceneByIndex` — leaves the engine's lifecycle state and scene registry
unchanged, so any sequence of observer calls leaves the state unchanged,
observer results are unaffected by preceding observer calls, and repeated
calls return equal results. -/
theorem observer_calls_are_const (e : RenderEngine) (op : ObserverOp)
    (ops : List ObserverOp) :
    (runObserver e op).2 = e ∧
    (runObservers e ops).2 = e ∧
    (runObserver (runObservers e ops).2 op).1 = (runObserver e op).1 ∧
    (runObserver (runObserver e op).2 op).1 = (runObserver e op).1 :=
  ⟨runObserver_snd e op, runObservers_snd e ops,
    by rw [runObservers_snd], by rw [runObserver_snd]⟩
